import Mathlib

/-!
Verification development for the `cds_ff_mpt` MOS layout primitive engine
(`templates_cds_ff_mpt/mos/base.py`, class `MOSTechTSMC16`).

The Python source is shallowly embedded:
* Python integers become `Int`; Python floor division `a // b` becomes
  `Int.fdiv` (both floor), and the ceiling-division idiom `-(-a // b)`
  becomes `cdiv` below.
* Python dictionaries whose keys are read dynamically (the class-level
  `tech_constants` table and the dictionary returned by
  `get_mos_tech_constants`) are embedded as association lists, and a
  lookup that may raise `KeyError` returns `Except Err`.
* Functions that can raise return `Except Err`; raising is `.error`.
* Named tuples (`ExtInfo`, `RowInfo`, ...) become structures.
-/

/-- Python ceiling-division idiom `-(-a // b)` (Python `//` is floor division,
which is `Int.fdiv`). -/
def cdiv (a b : Int) : Int := -((-a).fdiv b)

/-- Failure modes of the embedded code.  `keyError k` models a Python
`KeyError` on dictionary key `k`; `unsupportedLch` models the
`ValueError('Unsupported channel length: %d')` raised by
`get_mos_tech_constants`; `invalidGuardRing nf m` models the
`ValueError('guard_ring_nf = %d < %d')`; `unrecognizedThreshold` models the
`Exception('Unrecognized threshold %s')` raised by `get_mos_layers`. -/
inductive Err where
  | keyError : String → Err
  | unsupportedLch : Int → Err
  | invalidGuardRing : Int → Int → Err
  | unrecognizedThreshold : String → Err
deriving DecidableEq, Repr

/-- Boolean success test for `Except`. -/
def isOkB {α : Type} (e : Except Err α) : Bool :=
  match e with
  | .ok _ => true
  | .error _ => false

/-! ### The process constant table (`MOSTechTSMC16.tech_constants`)

Integer entries of the class-level `tech_constants` dictionary, in source
order.  (The two non-integer entries `layout_unit = 1e-6` and
`resolution = 0.001` are physical-unit scale factors; they are never read
by any function embedded here and are omitted.) -/

def fin_h : Int := 14
def fin_pitch : Int := 48
def mp_cpo_sp : Int := 19
def mp_h : Int := 40
def mp_po_ovl : Int := 16
def mp_md_sp : Int := 13
def mp_spy : Int := 34
def md_w : Int := 40
def md_sp : Int := 46
def md_od_spy : Int := 40
def md_od_exty : Int := 20
def md_h_min : Int := 68
def v0_sp : Int := 32
def vx_sp : Int := 42
def cpo_h : Int := 60
def cpo_od_sp : Int := 20
def cpo_spy : Int := 90
def cpo_po_ency : Int := 34
def od_sp_nfin_max : Int := 16
def od_nfin_min : Int := 2
def od_nfin_max : Int := 20
def dum_od_fg_min : Int := 2
def dum_od_fg_space : Int := 2
def imp_od_ency : Int := 45
def imp_od_encx : Int := 65
def imp_wmin : Int := 52
def mx_area_min : Int := 6176
def m1_sp_max : Int := 1600
def m1_sp_bnd : Int := 800
def m1_fill_lmin : Int := 200
def m1_fill_lmax : Int := 400
def mx_spy_min : Int := 64

/-- The `tech_constants` dictionary as an association list (keys in source
order). -/
def tech_constants_assoc : List (String × Int) :=
  [("fin_h", fin_h), ("fin_pitch", fin_pitch), ("mp_cpo_sp", mp_cpo_sp),
   ("mp_h", mp_h), ("mp_po_ovl", mp_po_ovl), ("mp_md_sp", mp_md_sp),
   ("mp_spy", mp_spy), ("md_w", md_w), ("md_sp", md_sp),
   ("md_od_spy", md_od_spy), ("md_od_exty", md_od_exty),
   ("md_h_min", md_h_min), ("v0_sp", v0_sp), ("vx_sp", vx_sp),
   ("cpo_h", cpo_h), ("cpo_od_sp", cpo_od_sp), ("cpo_spy", cpo_spy),
   ("cpo_po_ency", cpo_po_ency), ("od_sp_nfin_max", od_sp_nfin_max),
   ("od_nfin_min", od_nfin_min), ("od_nfin_max", od_nfin_max),
   ("dum_od_fg_min", dum_od_fg_min), ("dum_od_fg_space", dum_od_fg_space),
   ("imp_od_ency", imp_od_ency), ("imp_od_encx", imp_od_encx),
   ("imp_wmin", imp_wmin), ("mx_area_min", mx_area_min),
   ("m1_sp_max", m1_sp_max), ("m1_sp_bnd", m1_sp_bnd),
   ("m1_fill_lmin", m1_fill_lmin), ("m1_fill_lmax", m1_fill_lmax),
   ("mx_spy_min", mx_spy_min)]

/-- Reading `cls.tech_constants[k]`: a missing key is a Python `KeyError`. -/
def tc_lookup (k : String) : Except Err Int :=
  match tech_constants_assoc.lookup k with
  | some v => .ok v
  | none => .error (.keyError k)

/-- Generic dictionary read `d[k]` for association-list dictionaries. -/
def dict_lookup (d : List (String × Int)) (k : String) : Except Err Int :=
  match d.lookup k with
  | some v => .ok v
  | none => .error (.keyError k)

/-- A layout layer: a (layer-name, purpose) pair, e.g. `('CutPoly', 'drawing')`. -/
abbrev Layer := String × String

/-- `get_mos_layers(mos_type, threshold)`: implant/well/threshold layer names.
Raises for an unrecognized threshold string. -/
def get_mos_layers (mos_type threshold : String) : Except Err (List Layer) :=
  let lay_list : List Layer := [("FinArea", "fin48")]
  let lay_list :=
    if mos_type = "pch" ∨ mos_type = "ntap" then lay_list ++ [("NWell", "drawing")]
    else lay_list
  let mtype := if mos_type = "pch" ∨ mos_type = "ptap" then "P" else "N"
  if threshold = "lvt" ∨ threshold = "fast" then
    .ok (lay_list ++ [(mtype ++ "lvt", "drawing")])
  else if threshold = "svt" ∨ threshold = "standard" then
    .ok (lay_list ++ [(mtype ++ "svt", "drawing")])
  else if threshold = "hvt" ∨ threshold = "low_power" then
    .ok (lay_list ++ [(mtype ++ "hvt", "drawing")])
  else
    .error (.unrecognizedThreshold threshold)

/-! ### Via-stack sizing (`get_gate_via_info`, `get_ds_via_info`) -/

/-- Result of `get_gate_via_info`: the via-array dictionary plus derived
metal heights. -/
structure GateViaInfo where
  h : List Int
  w : List Int
  bot_encx : List Int
  bot_ency : List Int
  top_encx : List Int
  top_ency : List Int
  m1_h : Int
  m2_h : Int
  m3_h : Int
deriving DecidableEq, Repr

/-- `get_gate_via_info(lch_unit)`.  The source never consults `lch_unit`
and reads only the keys `mx_area_min` and `md_w` of the constant table
(both present), so the embedding is lch-independent and total modulo the
two lookups. -/
def get_gate_via_info (lch_unit : Int) : Except Err GateViaInfo := do
  let h := [(32 : Int), 32, 32]
  let w := [(32 : Int), 32, 32]
  let bot_encx := [(18 : Int), 4, 40]
  let bot_ency := [(4 : Int), 40, 0]
  let top_encx := [(4 : Int), 40, 4]
  let top_ency := [(40 : Int), 0, 40]
  let mx_area_min ← tc_lookup "mx_area_min"
  let md_w ← tc_lookup "md_w"
  let v0_h : Int := 32
  let v1_h : Int := 32
  let v2_h : Int := 32
  let v0_m1_ency : Int := 40
  let v1_m2_ency : Int := 0
  let v2_m3_ency : Int := 40
  let mx_h_min := cdiv mx_area_min md_w
  let m1_h := max (v0_h + 2 * v0_m1_ency) mx_h_min
  let m2_h := v1_h + 2 * v1_m2_ency
  let m3_h := max (v2_h + 2 * v2_m3_ency) mx_h_min
  pure { h := h, w := w, bot_encx := bot_encx, bot_ency := bot_ency,
         top_encx := top_encx, top_ency := top_ency,
         m1_h := m1_h, m2_h := m2_h, m3_h := m3_h }

/-- Result of `get_ds_via_info`: via arrays plus V0 count and derived
MD/metal heights. -/
structure DsViaInfo where
  h : List Int
  w : List Int
  bot_encx : List Int
  bot_ency : List Int
  top_encx : List Int
  top_ency : List Int
  num_v0 : Int
  md_h : Int
  m1_h : Int
  m2_h : Int
  m3_h : Int
deriving DecidableEq, Repr

/-- `get_ds_via_info(lch_unit, w)`.  The source reads
`cls.tech_constants['fin_p']` (line 224), but the table's key is
`fin_pitch`; the lookup therefore raises `KeyError('fin_p')` on every
call.  The remainder of the body is embedded faithfully even though it is
unreachable. -/
def get_ds_via_info (lch_unit w : Int) : Except Err DsViaInfo := do
  let vh := [(32 : Int), 64, 64]
  let vw := [(32 : Int), 32, 32]
  let bot_encx := [(3 : Int), 4, 10]
  let bot_ency := [(18 : Int), 20, 10]
  let top_encx := [(4 : Int), 10, 4]
  let top_ency := [(40 : Int), 10, 20]
  let fin_h ← tc_lookup "fin_h"
  let fin_p ← tc_lookup "fin_p"
  let md_od_exty ← tc_lookup "md_od_exty"
  let md_h_min ← tc_lookup "md_h_min"
  let mx_area_min ← tc_lookup "mx_area_min"
  let v0_sp ← tc_lookup "v0_sp"
  let md_w ← tc_lookup "md_w"
  let vx_sp ← tc_lookup "vx_sp"
  let v0_h : Int := 32
  let v0_md_ency : Int := 18
  let v0_m1_ency : Int := 40
  let od_h := (w - 1) * fin_p + fin_h
  let md_h := max (od_h + 2 * md_od_exty) md_h_min
  let num_v0 := (md_h - v0_md_ency * 2 - v0_sp).fdiv (v0_sp + v0_h)
  let v0_harr := num_v0 * (v0_h + v0_sp) - v0_sp
  let m1_h := v0_harr + 2 * v0_m1_ency
  let v1_h : Int := 64
  let v1_m1_ency : Int := 20
  let v1_m2_ency : Int := 10
  let m2_h := v1_h + 2 * v1_m2_ency
  let m1_h := max m1_h (2 * v1_m1_ency + 2 * v1_h + vx_sp)
  let mx_h_min := cdiv mx_area_min md_w
  let m1_h := max m1_h mx_h_min
  let v2_h : Int := 64
  let v2_m3_ency : Int := 20
  let m3_h := max (v2_h + 2 * v2_m3_ency) mx_h_min
  pure { h := vh, w := vw, bot_encx := bot_encx, bot_ency := bot_ency,
         top_encx := top_encx, top_ency := top_ency,
         num_v0 := num_v0, md_h := md_h, m1_h := m1_h, m2_h := m2_h,
         m3_h := m3_h }

/-! ### Per-channel-length constants (`get_mos_tech_constants`) -/

/-- `get_mos_tech_constants(lch_unit)`: only `lch_unit = 18` is supported.
The returned dictionary is kept as an association list because some
callers read keys that were never stored (`get_ext_info` reads `md_w`).
Key order follows the assignments in the source. -/
def get_mos_tech_constants (lch_unit : Int) : Except Err (List (String × Int)) :=
  if lch_unit = 18 then
    .ok [("sd_pitch", 90), ("laygo_num_sd_per_track", 1), ("num_sd_per_track", 1),
         ("laygo_conn_w", md_w), ("mos_conn_w", md_w), ("dum_conn_w", md_w),
         ("m1_w", md_w)]
  else
    .error (.unsupportedLch lch_unit)

/-! ### Named-tuple records -/

/-- `EdgeInfo` named tuple: the active-region category at a block edge
(`od_type` may be Python `None`, modelled as `none`). -/
structure EdgeInfo where
  od_type : Option String
deriving DecidableEq, Repr

/-- `ExtInfo` named tuple: boundary/margin descriptor published by every
row solver for one of its edges. -/
structure ExtInfo where
  mx_margin : Int
  od_margin : Int
  md_margin : Int
  m1_margin : Int
  imp_min_w : Int
  mtype : String × String
  thres : String
  po_types : List Int
  edgel_info : EdgeInfo
  edger_info : EdgeInfo
deriving DecidableEq, Repr

/-- `RowInfo` named tuple: one drawable transistor/dummy/substrate row. -/
structure RowInfo where
  od_x_list : List (Int × Int)
  od_y : Int × Int
  od_type : String × String
  po_y : Int × Int
  md_y : Int × Int
deriving DecidableEq, Repr

/-- `AdjRowInfo` named tuple: gate-only geometry of an adjacent row. -/
structure AdjRowInfo where
  po_y : Int × Int
  po_types : List Int
deriving DecidableEq, Repr

/-- `FillInfo` named tuple: declarative fill-metal request. -/
structure FillInfo where
  layer : Layer
  exc_layer : Option Layer
  x_intv_list : List (Int × Int)
  y_intv_list : List (Int × Int)
deriving DecidableEq, Repr

/-- One entry of `imp_params`: `(mos_type, threshold, imp_yb, imp_yt,
thres_yb, thres_yt)`. -/
abbrev ImpParam := String × String × Int × Int × Int × Int

instance : DecidableEq ImpParam := fun a b => inferInstanceAs (Decidable (a = b))

/-- One entry of `lay_info_list`: `(layer, x-offset, y-low, y-high)`. -/
abbrev LayInfo := Layer × Int × Int × Int

/-- The `layout_info` dictionary produced by every solver.  `imp_params`
uses `none` both for an explicit Python `None` and for the one output
(`get_gr_sub_info`) whose dictionary omits the key; the distinction is
never observed by the embedded code. -/
structure LayoutInfo where
  lch_unit : Int
  md_w : Int
  fg : Int
  sd_pitch : Int
  array_box_xl : Int
  array_box_y : Int × Int
  draw_od : Bool
  row_info_list : List RowInfo
  lay_info_list : List LayInfo
  adj_info_list : List AdjRowInfo
  left_blk_info : Option EdgeInfo
  right_blk_info : Option EdgeInfo
  fill_info_list : List FillInfo
  blk_type : String
  imp_params : Option (List ImpParam)
deriving DecidableEq, Repr

/-! ### Row geometry solver: the fin-grid rounding step of `get_mos_info`

`get_mos_info` step 1C (source lines 465-474): the unrounded active-region
center `od_yc` is rounded to the fin grid, with the grid offset depending
on the parity of the fin count `w`:

    if w % 2 == 0: od_yc = -(-od_yc // fin_p) * fin_p
    else:          od_yc = -(-(od_yc - fin_p // 2) // fin_p) * fin_p + fin_p // 2
-/
def mos_od_yc_round (w od_yc : Int) : Int :=
  if w % 2 = 0 then cdiv od_yc fin_pitch * fin_pitch
  else cdiv (od_yc - fin_pitch.fdiv 2) fin_pitch * fin_pitch + fin_pitch.fdiv 2

/-! ### Extension-block solver: legal width enumeration
(`get_valid_extension_widths`, source lines 584-680)

The computation is split into the three named quantities of the source:
the minimum extension width `min_ext_w`, the maximum width needing no
dummy OD `max_ext_w_no_od`, and the minimum width at which a dummy OD is
drawable `min_ext_w_od`.  All constant-table keys it reads exist, so the
function is total. -/

/-- Step 1 of `get_valid_extension_widths`: minimum extension width from
wire line-end space, MD space and minimum implant width. -/
def ext_min_w (top_ext_info bot_ext_info : ExtInfo) : Int :=
  let mx_margin := top_ext_info.mx_margin + bot_ext_info.mx_margin
  let m1_margin := top_ext_info.m1_margin + bot_ext_info.m1_margin
  let v := max 0 (cdiv (mx_spy_min - min mx_margin m1_margin) fin_pitch)
  let md_margin := top_ext_info.md_margin + bot_ext_info.md_margin
  max (max v (cdiv (md_sp - md_margin) fin_pitch))
    (cdiv (bot_ext_info.imp_min_w + top_ext_info.imp_min_w) fin_pitch)

/-- Step 2 of `get_valid_extension_widths`: maximum extension width
without dummy OD. -/
def max_ext_w_no_od (top_ext_info bot_ext_info : ExtInfo) : Int :=
  let od_space_nfin :=
    (top_ext_info.od_margin + bot_ext_info.od_margin + fin_h).fdiv fin_pitch
  od_sp_nfin_max - od_space_nfin

/-- Step 3 of `get_valid_extension_widths`: minimum extension width with
dummy OD. -/
def min_ext_w_od (top_ext_info bot_ext_info : ExtInfo) : Int :=
  let fin_p2 := fin_pitch.fdiv 2
  let fin_h2 := fin_h.fdiv 2
  let bot_imp_min_w := bot_ext_info.imp_min_w
  let top_imp_min_w := top_ext_info.imp_min_w
  let dum_md_yb := -bot_ext_info.md_margin + md_sp
  let od_yb_max1 := max (dum_md_yb + md_od_exty) (cpo_h.fdiv 2 + cpo_od_sp)
  let od_yb_max1 := cdiv (od_yb_max1 - fin_p2 + fin_h2) fin_pitch
  let od_yb_max := bot_imp_min_w + imp_od_ency
  let od_yb_max := max od_yb_max1 (cdiv (od_yb_max - fin_p2 + fin_h2) fin_pitch)
  let dum_md_yt := top_ext_info.md_margin - md_sp
  let od_yt_min1 := min (dum_md_yt - md_od_exty) (-(cpo_h.fdiv 2) - cpo_od_sp)
  let od_yt_min1 := (od_yt_min1 - fin_p2 - fin_h2).fdiv fin_pitch
  let od_yt_min := -top_imp_min_w - imp_od_ency
  let od_yt_min := min od_yt_min1 ((od_yt_min - fin_p2 - fin_h2).fdiv fin_pitch)
  let v := max 0 (od_nfin_min - (od_yt_min - od_yb_max) - 1) * fin_pitch
  let v := max v (cpo_spy + cpo_h)
  let v := max v (md_h_min - (dum_md_yt - dum_md_yb))
  cdiv v fin_pitch

/-- Python `list(range(lo, hi + 1))`. -/
def rangeAsc (lo hi : Int) : List Int :=
  (List.range (hi + 1 - lo).toNat).map fun (i : Nat) => lo + (i : Int)

/-- `get_valid_extension_widths(lch_unit, top_ext_info, bot_ext_info)`:
either the single minimum width (the two regimes connect seamlessly), or
the contiguous no-dummy range followed by the minimum with-dummy width. -/
def get_valid_extension_widths (lch_unit : Int)
    (top_ext_info bot_ext_info : ExtInfo) : List Int :=
  if min_ext_w_od top_ext_info bot_ext_info ≤
      max_ext_w_no_od top_ext_info bot_ext_info + 1 then
    [ext_min_w top_ext_info bot_ext_info]
  else
    rangeAsc (ext_min_w top_ext_info bot_ext_info)
        (max_ext_w_no_od top_ext_info bot_ext_info)
      ++ [min_ext_w_od top_ext_info bot_ext_info]

/-! ### Extension-block solver: geometry synthesis (`get_ext_info`,
source lines 682-1031)

`fill_symmetric_const_space` comes from the external `bag` library (out of
scope); `get_ext_info` is therefore parameterized by it (`fillSym area
sp_max len_min len_max offset`). -/

/-- `_get_ext_dummy_loc` (source lines 682-733): placement of the single
extension dummy OD, with the two-pass clamping of OD and MD intervals. -/
def get_ext_dummy_loc (lch_unit bot_od_idx top_od_idx bot_cpo_yt top_cpo_yb
    bot_md_yt top_md_yb bot_imp_y top_imp_y : Int) :
    List (Int × Int) × List (Int × Int) :=
  let fin_p2 := fin_pitch.fdiv 2
  let fin_h2 := fin_h.fdiv 2
  let md_yb_min := bot_md_yt + md_sp
  let md_yt_max := top_md_yb - md_sp
  let od_yb_min := max (max (bot_cpo_yt + cpo_od_sp) (md_yb_min + md_od_exty))
    (bot_imp_y + imp_od_ency)
  let od_yt_max := min (min (top_cpo_yb - cpo_od_sp) (md_yt_max - md_od_exty))
    (top_imp_y - imp_od_ency)
  let od_area := top_od_idx - bot_od_idx
  let od_sp := min ((od_area - od_nfin_min).fdiv 2) od_sp_nfin_max
  let od_nfin := od_area - od_sp * 2 + 1
  let od_yb := (bot_od_idx + od_sp) * fin_pitch + fin_p2 - fin_h2
  let od_yt := od_yb + (od_nfin - 1) * fin_pitch + fin_h
  let od_h_min := (od_nfin_min - 1) * fin_pitch + fin_h
  let (od_yb, od_yt) :=
    if od_yb < od_yb_min then
      let od_yb := cdiv (od_yb_min - fin_p2 + fin_h2) fin_pitch * fin_pitch + fin_p2 - fin_h2
      (od_yb, max (od_yb + od_h_min) od_yt)
    else (od_yb, od_yt)
  let (od_yb, od_yt) :=
    if od_yt > od_yt_max then
      let od_yt := (od_yt_max - fin_p2 - fin_h2).fdiv fin_pitch * fin_pitch + fin_p2 + fin_h2
      (min (od_yt - od_h_min) od_yb, od_yt)
    else (od_yb, od_yt)
  let md_h := max md_h_min (od_yt - od_yb + 2 * md_od_exty)
  let od_yc := (od_yb + od_yt).fdiv 2
  let md_yb := od_yc - md_h.fdiv 2
  let md_yt := md_yb + md_h
  let (md_yb, md_yt) :=
    if md_yb < md_yb_min then (md_yb_min, max md_yt (md_yb_min + md_h_min))
    else (md_yb, md_yt)
  let (md_yb, md_yt) :=
    if md_yt > md_yt_max then (min (md_yt_max - md_h_min) md_yb, md_yt_max)
    else (md_yb, md_yt)
  ([(od_yb, od_yt)], [(md_yb, md_yt)])

/-- The PO/CPO placement loop of `get_ext_info` (source lines 904-922):
walks `od_y_list` carrying the running CPO center; returns the PO Y
intervals and the CPO centers drawn inside the loop (the final CPO at the
block top is appended by the caller, as in the source). -/
def ext_po_cpo_loop (yt : Int) : Int → List (Int × Int) → List (Int × Int) × List Int
  | _, [] => ([], [])
  | cpo_yc, od :: rest =>
    let next_cpo_yc :=
      match rest with
      | od2 :: _ => (od.2 + od2.1).fdiv 2
      | [] => yt
    let pc := ext_po_cpo_loop yt next_cpo_yc rest
    ((cpo_yc, next_cpo_yc) :: pc.1, cpo_yc :: pc.2)

/-- The two candidate implant split Y coordinates of `get_ext_info`
(source lines 848-936).  `has_dummy` is the emptiness test of
`od_fin_list`; with dummies, `od_y_list` has one entry per dummy row. -/
def ext_imp_split_y (w : Int) (one_cpo has_dummy : Bool)
    (od_y_list : List (Int × Int)) : Int × Int :=
  let yt := w * fin_pitch
  let yc := yt.fdiv 2
  if has_dummy then
    let num_dod := od_y_list.length
    if num_dod % 2 = 0 then (yc, yc)
    else
      let p := od_y_list.getD (num_dod / 2) (0, 0)
      (p.1 - imp_od_ency, p.2 + imp_od_ency)
  else if one_cpo then (yc, yc)
  else (0, yt)

/-- The implant-flavor split decision of `get_ext_info` (source lines
938-981): returns the possibly-rewritten
`(bot_mtype, bot_thres, top_mtype, top_thres)` plus the index `sep_idx`
selecting the bottom (0) or top (1) candidate split coordinate.
`has_od` is the truthiness of `od_x_list`. -/
def ext_imp_choice (bot_mtype bot_row_type bot_thres top_mtype top_row_type
    top_thres : String) (has_od : Bool) :
    String × String × String × String × Nat :=
  let bot_imp := if bot_row_type = "nch" ∨ bot_row_type = "ptap" then "nch" else "pch"
  let top_imp := if top_row_type = "nch" ∨ top_row_type = "ptap" then "nch" else "pch"
  let bot_tran := bot_row_type = "nch" ∨ bot_row_type = "pch"
  let top_tran := top_row_type = "nch" ∨ top_row_type = "pch"
  if bot_imp = top_imp then
    if ¬(bot_tran ↔ top_tran) then
      -- case 1: same flavor, one transistor + one substrate
      (bot_mtype, bot_thres, top_mtype, top_thres, if bot_tran then 0 else 1)
    else if bot_tran then
      -- case 3: same flavor, both transistors
      let sep_idx : Nat := if bot_thres ≤ top_thres then 0 else 1
      if has_od then (bot_imp, bot_thres, bot_imp, top_thres, sep_idx)
      else (bot_mtype, bot_thres, top_mtype, top_thres, sep_idx)
    else
      -- case 2: same flavor, both substrates
      (bot_mtype, bot_thres, top_mtype, top_thres,
        if bot_thres ≤ top_thres then 0 else 1)
  else
    if ¬(bot_tran ↔ top_tran) then
      -- case 5: different flavor, one transistor + one substrate
      if bot_tran then (bot_mtype, bot_thres, bot_imp, bot_thres, 1)
      else (top_imp, top_thres, top_mtype, top_thres, 0)
    else if bot_tran then
      -- case 6: different flavor, both transistors
      (bot_imp, bot_thres, top_imp, top_thres, if bot_imp = "nch" then 1 else 0)
    else
      -- case 4: different flavor, both substrates
      (bot_mtype, bot_thres, top_mtype, top_thres, if bot_imp = "nch" then 1 else 0)

/-- `imp_split_y[sep_idx]`. -/
def ext_imp_ysep (imp_split_y : Int × Int) (sep_idx : Nat) : Int :=
  if sep_idx = 0 then imp_split_y.1 else imp_split_y.2

/-- Result of `get_ext_info`. -/
structure ExtResult where
  layout_info : LayoutInfo
  left_edge_info : EdgeInfo × List EdgeInfo
  right_edge_info : EdgeInfo × List EdgeInfo
deriving DecidableEq, Repr

/-- `get_ext_info(lch_unit, w, fg, top_ext_info, bot_ext_info)` (source
lines 736-1031).  Note line 784 reads `mos_constants['md_w']`, a key
`get_mos_tech_constants` never stores (it stores the MD width under
`laygo_conn_w` / `mos_conn_w` / `dum_conn_w` / `m1_w`), so every call
raises `KeyError('md_w')` before the `w == 0` check; the remainder is
embedded faithfully even though it is unreachable.  The source keeps
`od_x_list` as the bare tuple `(0, fg)` in the dummy branch; it is only
ever tested for truthiness downstream, and is embedded as the singleton
list `[(0, fg)]`. -/
def get_ext_info (fillSym : Int → Int → Int → Int → Int → List (Int × Int))
    (lch_unit w fg : Int) (top_ext_info bot_ext_info : ExtInfo) :
    Except Err ExtResult := do
  let mos_constants ← get_mos_tech_constants lch_unit
  let m1_w ← dict_lookup mos_constants "mos_conn_w"
  let sd_pitch ← dict_lookup mos_constants "sd_pitch"
  let md_w ← dict_lookup mos_constants "md_w"
  let fin_p2 := fin_pitch.fdiv 2
  let fin_h2 := fin_h.fdiv 2
  let yt := w * fin_pitch
  let yc := yt.fdiv 2
  let lr_edge_info : EdgeInfo := ⟨some "dum"⟩
  let cpo_lay : Layer := ("CutPoly", "drawing")
  if w = 0 then
    pure { layout_info :=
            { lch_unit := lch_unit, md_w := md_w, fg := fg, sd_pitch := sd_pitch,
              array_box_xl := 0, array_box_y := (0, 0), draw_od := true,
              row_info_list := [],
              lay_info_list := [(cpo_lay, 0, (-cpo_h).fdiv 2, cpo_h.fdiv 2)],
              adj_info_list := [], left_blk_info := none, right_blk_info := none,
              fill_info_list := [], blk_type := "ext", imp_params := none },
           left_edge_info := (lr_edge_info, []),
           right_edge_info := (lr_edge_info, []) }
  else
    let bot_od_yt := -bot_ext_info.od_margin
    let bot_od_yt_fin := (bot_od_yt - fin_p2 - fin_h2).fdiv fin_pitch
    let top_od_yb := yt + top_ext_info.od_margin
    let top_od_yb_fin := (top_od_yb - fin_p2 + fin_h2).fdiv fin_pitch
    let area := top_od_yb_fin - bot_od_yt_fin
    let od_fin_list := fillSym area od_sp_nfin_max od_nfin_min od_nfin_max bot_od_yt_fin
    let cpo2_w := cdiv (cpo_spy + cpo_h) fin_pitch
    let one_cpo := w < cpo2_w
    let area_yb := -bot_ext_info.m1_margin
    let area_yt := yt + top_ext_info.m1_margin
    let fill_y_list := fillSym (area_yt - area_yb) m1_sp_max m1_fill_lmin m1_fill_lmax area_yb
    let branch :
        List (Int × Int) × List (Int × Int) × List (Int × Int) × List (Int × Int) ×
          (Int × Int) × List AdjRowInfo × List EdgeInfo × List EdgeInfo × List LayInfo :=
      if od_fin_list.isEmpty then
        -- no dummy OD
        let od_y_list := [((0 : Int), (0 : Int))]
        if one_cpo then
          ([], od_y_list, od_y_list, [(0, 0)],
           ext_imp_split_y w one_cpo false od_y_list,
           [{ po_y := (0, yc), po_types := bot_ext_info.po_types },
            { po_y := (yc, yt), po_types := top_ext_info.po_types }],
           [bot_ext_info.edgel_info, top_ext_info.edgel_info],
           [bot_ext_info.edger_info, top_ext_info.edger_info],
           [(cpo_lay, 0, yc - cpo_h.fdiv 2, yc + cpo_h.fdiv 2)])
        else
          ([], od_y_list, od_y_list, [(0, yt)],
           ext_imp_split_y w one_cpo false od_y_list, [], [], [],
           [(cpo_lay, 0, (-cpo_h).fdiv 2, cpo_h.fdiv 2),
            (cpo_lay, 0, yt - cpo_h.fdiv 2, yt + cpo_h.fdiv 2)])
      else
        -- has dummy OD
        let od_x_list : List (Int × Int) := [(0, fg)]
        let num_dod := od_fin_list.length
        let oddmd :=
          if num_dod = 1 then
            let bot_cpo_yt := cpo_h.fdiv 2
            let top_cpo_yb := yt - cpo_h.fdiv 2
            let bot_md_yt := -bot_ext_info.md_margin
            let top_md_yb := yt + top_ext_info.md_margin
            let bot_imp_y := bot_ext_info.imp_min_w
            let top_imp_y := yt - top_ext_info.imp_min_w
            get_ext_dummy_loc lch_unit bot_od_yt_fin top_od_yb_fin bot_cpo_yt
              top_cpo_yb bot_md_yt top_md_yb bot_imp_y top_imp_y
          else
            (od_fin_list.map (fun ab =>
               (fin_p2 - fin_h2 + ab.1 * fin_pitch, fin_p2 + fin_h2 + ab.2 * fin_pitch)),
             od_fin_list.map (fun ab =>
               let od_yb := fin_p2 - fin_h2 + ab.1 * fin_pitch
               let od_yt := fin_p2 + fin_h2 + ab.2 * fin_pitch
               let od_yc := (od_yb + od_yt).fdiv 2
               let md_h := max md_h_min (od_yt - od_yb + 2 * md_od_exty)
               (od_yc - md_h.fdiv 2, od_yc + md_h.fdiv 2)))
        let od_y_list := oddmd.1
        let md_y_list := oddmd.2
        let pc := ext_po_cpo_loop yt 0 od_y_list
        let lay_add := pc.2.map (fun c => (cpo_lay, (0 : Int), c - cpo_h.fdiv 2, c + cpo_h.fdiv 2))
          ++ [(cpo_lay, 0, yt - cpo_h.fdiv 2, yt + cpo_h.fdiv 2)]
        (od_x_list, od_y_list, md_y_list, pc.1,
         ext_imp_split_y w one_cpo true od_y_list, [], [], [], lay_add)
    let od_x_list := branch.1
    let od_y_list := branch.2.1
    let md_y_list := branch.2.2.1
    let po_y_list := branch.2.2.2.1
    let imp_split_y := branch.2.2.2.2.1
    let adj_row_list := branch.2.2.2.2.2.1
    let adj_edgel_infos := branch.2.2.2.2.2.2.1
    let adj_edger_infos := branch.2.2.2.2.2.2.2.1
    let lay_add := branch.2.2.2.2.2.2.2.2
    -- implant and threshold layer information (source lines 938-991)
    let top_mtype := top_ext_info.mtype.1
    let top_row_type := top_ext_info.mtype.2
    let top_thres := top_ext_info.thres
    let bot_mtype := bot_ext_info.mtype.1
    let bot_row_type := bot_ext_info.mtype.2
    let bot_thres := bot_ext_info.thres
    let choice := ext_imp_choice bot_mtype bot_row_type bot_thres top_mtype
      top_row_type top_thres (¬od_x_list.isEmpty)
    let bot_mtype := choice.1
    let bot_thres := choice.2.1
    let top_mtype := choice.2.2.1
    let top_thres := choice.2.2.2.1
    let sep_idx := choice.2.2.2.2
    let imp_ysep := ext_imp_ysep imp_split_y sep_idx
    let imp_params : List ImpParam :=
      [(bot_mtype, bot_thres, 0, imp_ysep, 0, imp_ysep),
       (top_mtype, top_thres, imp_ysep, yt, imp_ysep, yt)]
    let lay2 ← imp_params.foldlM (fun acc ip => do
        let lays ← get_mos_layers ip.1 ip.2.1
        pure (acc ++ lays.map (fun lay =>
          if lay.1.startsWith "VT" then (lay, (0 : Int), ip.2.2.2.2.1, ip.2.2.2.2.2)
          else (lay, (0 : Int), ip.2.2.1, ip.2.2.2.1)))) ([] : List LayInfo)
    let lay_info_list := lay_add ++ lay2
    -- row information (source lines 993-999)
    let row_info_list := (od_y_list.zip (po_y_list.zip md_y_list)).map (fun t =>
      let cur_mtype := if max t.1.1 t.1.2 < imp_ysep then bot_mtype else top_mtype
      let cur_sub_type := if cur_mtype = "nch" ∨ cur_mtype = "ptap" then "ptap" else "ntap"
      { od_x_list := od_x_list, od_y := t.1, od_type := ("dum", cur_sub_type),
        po_y := t.2.1, md_y := t.2.2 : RowInfo })
    -- metal 1 fill (source lines 1001-1005)
    let fill_x_list := (List.range (fg + 1).toNat).map (fun (idx : Nat) =>
      ((idx : Int) * sd_pitch - m1_w.fdiv 2, (idx : Int) * sd_pitch + m1_w.fdiv 2))
    let fill_info : FillInfo :=
      { layer := ("M1", "drawing"), exc_layer := none,
        x_intv_list := fill_x_list, y_intv_list := fill_y_list }
    pure { layout_info :=
            { lch_unit := lch_unit, md_w := md_w, fg := fg, sd_pitch := sd_pitch,
              array_box_xl := 0, array_box_y := (0, yt), draw_od := true,
              row_info_list := row_info_list, lay_info_list := lay_info_list,
              adj_info_list := adj_row_list, left_blk_info := none,
              right_blk_info := none, fill_info_list := [fill_info],
              blk_type := "ext", imp_params := some imp_params },
           left_edge_info := (lr_edge_info, adj_edgel_infos),
           right_edge_info := (lr_edge_info, adj_edger_infos) }

/-! ### Substrate / tap row solver (`get_substrate_info`, source lines
1045-1197) -/

/-- Result of `get_substrate_info`. -/
structure SubstrateResult where
  layout_info : LayoutInfo
  sd_yc : Int
  ext_top_info : ExtInfo
  ext_bot_info : ExtInfo
  left_edge_info : EdgeInfo × List EdgeInfo
  right_edge_info : EdgeInfo × List EdgeInfo
  blk_height : Int
  gb_conn_y : Int × Int
  ds_conn_y : Int × Int
deriving DecidableEq, Repr

/-- `get_substrate_info(lch_unit, w, sub_type, threshold, fg, blk_pitch)`.
Its first statement (source line 1060) reads
`cls.tech_constants['md_od_ext']`, but the table's key is `md_od_exty`,
so every call raises `KeyError('md_od_ext')`.  The remainder of the body
(height quantization to `lcm(blk_pitch, fin_pitch)` and OD re-centering
included) is embedded faithfully even though it is unreachable. -/
def get_substrate_info (lch_unit w : Int) (sub_type threshold : String)
    (fg blk_pitch : Int) : Except Err SubstrateResult := do
  let md_od_ext ← tc_lookup "md_od_ext"
  let fin_h ← tc_lookup "fin_h"
  let fin_p ← tc_lookup "fin_pitch"
  let mp_h ← tc_lookup "mp_h"
  let mp_cpo_sp ← tc_lookup "mp_cpo_sp"
  let mp_md_sp ← tc_lookup "mp_md_sp"
  let mp_spy ← tc_lookup "mp_spy"
  let cpo_h ← tc_lookup "cpo_h"
  let md_h_min ← tc_lookup "md_h_min"
  let md_w ← tc_lookup "md_w"
  let fin_p2 := fin_p.fdiv 2
  let fin_h2 := fin_h.fdiv 2
  let mos_constants ← get_mos_tech_constants lch_unit
  let sd_pitch ← dict_lookup mos_constants "sd_pitch"
  -- figure out od/md height
  let od_h := (w - 1) * fin_p + fin_h
  let md_h := max md_h_min (od_h + 2 * md_od_ext)
  let md_od_ext := (md_h - od_h).fdiv 2
  -- step 1: bottom CPO
  let cpo_bot_yt := cpo_h.fdiv 2
  -- step 2: bottom M0_PO
  let mp_yb := max (mp_spy.fdiv 2) (cpo_bot_yt + mp_cpo_sp)
  let mp_yt := mp_yb + mp_h
  -- step 3: OD coordinate
  let od_bfin_yc := mp_yt + mp_md_sp + md_od_ext
  let od_bfin_yc := cdiv (od_bfin_yc - fin_p2) fin_p * fin_p + fin_p2
  let od_yb := od_bfin_yc - fin_h2
  let od_yt := od_yb + od_h
  let cpo_top_yc := od_yt + od_yb
  -- fix substrate height quantization, then recenter OD location
  let blk_pitch2 : Int := Int.lcm blk_pitch fin_p
  let blk_h := cdiv cpo_top_yc blk_pitch2 * blk_pitch2
  let cpo_top_yc := blk_h
  let od_yb := blk_h.fdiv 2 - od_h.fdiv 2
  let od_yb := (od_yb - fin_p2 + fin_h2).fdiv fin_p * fin_p + fin_p2 - fin_h2
  let od_yt := od_yb + od_h
  let od_yc := (od_yb + od_yt).fdiv 2
  -- step 3 (cont.): MD Y coordinates
  let md_yb := (od_yb + od_yt - md_h).fdiv 2
  let md_yt := md_yb + md_h
  -- step 3.5: MP update and M1 bounds
  let via_info ← get_ds_via_info lch_unit w
  let gv0_h := via_info.h.getD 0 0
  let top_ency := via_info.top_ency.getD 0 0
  let gm1_delta := gv0_h.fdiv 2 + top_ency
  let mp_yt := md_yb - mp_md_sp
  let mp_yb := mp_yt - mp_h
  let mp_yc := (mp_yt + mp_yb).fdiv 2
  let g_m1_yb := mp_yc - gm1_delta
  let mp_yb := md_yt + mp_md_sp
  let mp_yt := mp_yb + mp_h
  let mp_yc := (mp_yb + mp_yt).fdiv 2
  let g_m1_yt := mp_yc + gm1_delta
  -- step 4: PO locations
  let po_yb : Int := 0
  let po_yt := cpo_top_yc
  -- step 5: layout information
  let lays ← get_mos_layers sub_type threshold
  let lay_info_list := lays.map (fun lay => (lay, (0 : Int), po_yb, po_yt))
  let lr_edge_info : EdgeInfo := ⟨some "sub"⟩
  let ds_conn_y := (g_m1_yb, g_m1_yt)
  let fill_info : FillInfo :=
    { layer := ("M1", "drawing"), exc_layer := none,
      x_intv_list := [], y_intv_list := [ds_conn_y] }
  let layout_info : LayoutInfo :=
    { lch_unit := lch_unit, md_w := md_w, fg := fg, sd_pitch := sd_pitch,
      array_box_xl := 0, array_box_y := (po_yb, po_yt), draw_od := true,
      row_info_list := [{ od_x_list := [(0, fg)], od_y := (od_yb, od_yt),
                          od_type := ("sub", sub_type), po_y := (po_yb, po_yt),
                          md_y := (md_yb, md_yt) }],
      lay_info_list := lay_info_list, adj_info_list := [],
      left_blk_info := none, right_blk_info := none,
      fill_info_list := [fill_info], blk_type := "sub", imp_params := none }
  let mtype := (sub_type, sub_type)
  let po_types : List Int := List.replicate fg.toNat 1
  let ext_top_info : ExtInfo :=
    { mx_margin := po_yt - g_m1_yt, od_margin := po_yt - od_yt,
      md_margin := po_yt - md_yt, m1_margin := po_yt - g_m1_yt,
      imp_min_w := 0, mtype := mtype, thres := threshold,
      po_types := po_types, edgel_info := lr_edge_info,
      edger_info := lr_edge_info }
  let ext_bot_info : ExtInfo :=
    { mx_margin := g_m1_yb - po_yb, od_margin := od_yb - po_yb,
      md_margin := md_yb - po_yb, m1_margin := g_m1_yb - po_yb,
      imp_min_w := 0, mtype := mtype, thres := threshold,
      po_types := po_types, edgel_info := lr_edge_info,
      edger_info := lr_edge_info }
  pure { layout_info := layout_info, sd_yc := od_yc,
         ext_top_info := ext_top_info, ext_bot_info := ext_bot_info,
         left_edge_info := (lr_edge_info, []),
         right_edge_info := (lr_edge_info, []),
         blk_height := po_yt, gb_conn_y := ds_conn_y, ds_conn_y := ds_conn_y }

/-! ### Edge / boundary solver (`get_edge_tech_constants`, `get_edge_info`,
`get_gr_sub_info`; source lines 268-289, 359-406, 1375-1437) -/

/-- The dictionary returned by `get_edge_tech_constants`. -/
structure EdgeTechConstants where
  gr_nf_min : Int
  outer_fg : Int
  gr_outer_fg : Int
  gr_sub_fg_margin : Int
  gr_sep_fg : Int
  cpo_extx : Int
deriving DecidableEq, Repr

/-- `get_edge_tech_constants(lch_unit)` (source lines 268-289). -/
def get_edge_tech_constants (lch_unit : Int) : Except Err EdgeTechConstants := do
  let mos_constants ← get_mos_tech_constants lch_unit
  let sd_pitch ← dict_lookup mos_constants "sd_pitch"
  let od_fg_margin := cdiv (imp_od_encx - (sd_pitch - lch_unit).fdiv 2) sd_pitch
  pure { gr_nf_min := 2, outer_fg := 3, gr_outer_fg := 0,
         gr_sub_fg_margin := od_fg_margin, gr_sep_fg := od_fg_margin + 1,
         cpo_extx := 34 }

/-- The dictionary returned by `get_edge_info`. -/
structure EdgeBlockInfo where
  edge_width : Int
  dx_edge : Int
  cpo_xl : Int
  outer_fg : Int
  gr_sub_fg : Int
  gr_sep_fg : Int
deriving DecidableEq, Repr

/-- `get_edge_info(grid, lch_unit, guard_ring_nf, top_layer, is_end)`
(source lines 359-406).  The external grid capability is consumed only
through `grid.get_block_size(top_layer)[0]`, passed here as `vm_pitch`.
The guard `0 < guard_ring_nf < gr_nf_min` raises; note `guard_ring_nf = 0`
(no guard ring) passes the guard. -/
def get_edge_info (vm_pitch lch_unit guard_ring_nf : Int) (is_end : Bool) :
    Except Err EdgeBlockInfo := do
  let ec ← get_edge_tech_constants lch_unit
  let mos_constants ← get_mos_tech_constants lch_unit
  let sd_pitch ← dict_lookup mos_constants "sd_pitch"
  if 0 < guard_ring_nf ∧ guard_ring_nf < ec.gr_nf_min then
    .error (.invalidGuardRing guard_ring_nf ec.gr_nf_min)
  else
    let xc :=
      if is_end then
        let left_margin := (sd_pitch - lch_unit).fdiv 2
        let max_encx := max left_margin ec.cpo_extx
        let xshift := cdiv (max_encx - left_margin) vm_pitch * vm_pitch
        (xshift, left_margin - ec.cpo_extx + xshift)
      else ((0 : Int), (0 : Int))
    let r :=
      if guard_ring_nf = 0 then (ec.outer_fg, (0 : Int), ec.outer_fg)
      else
        let gr_sub_fg := guard_ring_nf + 2 + 2 * ec.gr_sub_fg_margin
        (ec.gr_outer_fg, gr_sub_fg, ec.gr_outer_fg + gr_sub_fg + ec.gr_sep_fg)
    pure { edge_width := r.2.2 * sd_pitch + xc.1, dx_edge := xc.1,
           cpo_xl := xc.2, outer_fg := r.1, gr_sub_fg := r.2.1,
           gr_sep_fg := ec.gr_sep_fg }

/-- `get_gr_sub_info(guard_ring_nf, layout_info)` (source lines
1375-1437): the guard-ring substrate block derived from a row layout.
Raises when `guard_ring_nf < gr_nf_min`. -/
def get_gr_sub_info (guard_ring_nf : Int) (layout_info : LayoutInfo) :
    Except Err LayoutInfo := do
  let ec ← get_edge_tech_constants layout_info.lch_unit
  if guard_ring_nf < ec.gr_nf_min then
    .error (.invalidGuardRing guard_ring_nf ec.gr_nf_min)
  else
    let fg := ec.gr_nf_min + 2 + 2 * ec.gr_sub_fg_margin
    let od_x_list : List (Int × Int) :=
      [(ec.gr_sub_fg_margin + 1, ec.gr_sub_fg_margin + 1 + ec.gr_nf_min)]
    let row_info_list := layout_info.row_info_list.map fun r =>
      { r with od_x_list := od_x_list, od_type := ("sub", r.od_type.2) }
    let new_lay_list ←
      match layout_info.imp_params with
      | none => pure layout_info.lay_info_list
      | some ips => do
        let base := layout_info.lay_info_list.filter fun li => li.1.1 = "CutPoly"
        let extra ← ips.foldlM (fun acc ip => do
            let sub_type := if ip.1 = "nch" ∨ ip.1 = "ptap" then "ptap" else "ntap"
            let lays ← get_mos_layers sub_type ip.2.1
            pure (acc ++ lays.map fun lay =>
              (lay, (0 : Int), ip.2.2.1, ip.2.2.2.1))) ([] : List LayInfo)
        pure (base ++ extra)
    let po_types : List Int :=
      List.replicate ec.gr_sub_fg_margin.toNat 0
        ++ List.replicate (ec.gr_nf_min + 2).toNat 1
        ++ List.replicate ec.gr_sub_fg_margin.toNat 0
    let adj_info_list := layout_info.adj_info_list.map fun a =>
      { a with po_types := po_types }
    let fill_info_list := layout_info.fill_info_list.map fun f =>
      { f with x_intv_list := ([] : List (Int × Int)) }
    pure { lch_unit := layout_info.lch_unit, md_w := layout_info.md_w, fg := fg,
           sd_pitch := layout_info.sd_pitch, array_box_xl := 0,
           array_box_y := layout_info.array_box_y, draw_od := true,
           row_info_list := row_info_list, lay_info_list := new_lay_list,
           adj_info_list := adj_info_list, left_blk_info := none,
           right_blk_info := none, fill_info_list := fill_info_list,
           blk_type := "gr_sub", imp_params := none }

/-! ### Render step (`draw_mos`): edge-information resolution and poly
purpose selection (source lines 1590-1658) -/

/-- The `left_blk_info` / `right_blk_info` resolution at the top of
`draw_mos` (source lines 1590-1602).  The left side is resolved first;
the right side, when missing, inherits the resolved left side.  `none`
is Python `None` ("use default"). -/
def resolve_blk_info (fg : Int) (left_blk_info right_blk_info : Option EdgeInfo) :
    EdgeInfo × EdgeInfo :=
  let default_edge_info : EdgeInfo := ⟨none⟩
  let lres :=
    match left_blk_info with
    | some x => x
    | none =>
      match right_blk_info with
      | some y => if fg = 1 then y else default_edge_info
      | none => default_edge_info
  let rres :=
    match right_blk_info with
    | some x => x
    | none => if fg = 1 then lres else default_edge_info
  (lres, rres)

/-- The per-finger `cur_od_type` selection of the PO-drawing loop of
`draw_mos` (source lines 1643-1655): a finger on OD uses the row's own
OD type; otherwise the boundary fingers consult the resolved left/right
block info and interior fingers get `None`. -/
def po_cur_od_type (fg idx : Int) (po_on_od : Bool) (od_type : Option String)
    (lres rres : EdgeInfo) : Option String :=
  if po_on_od then od_type
  else if idx = 0 then lres.od_type
  else if idx = fg - 1 then rres.od_type
  else none

/-- The PO layer choice of `draw_mos` (source line 1657): live poly for
`'mos'`/`'sub'`, dummy poly otherwise. -/
def po_layer (cur_od_type : Option String) : Layer :=
  if cur_od_type = some "mos" ∨ cur_od_type = some "sub" then ("Poly", "drawing")
  else ("Poly", "dummy")

/-! ### Substrate connection track selection
(`draw_substrate_connection`, source lines 1745-1775)

When `dummy_only` is false, the chosen port tracks and dummy (M2) tracks
are computed from the requested `port_tracks` / `dum_tracks` in
half-track units (`htr v = 2*v + 1`).  Python mutable sets are embedded
as duplicate-free lists; `set` iteration order for the promotion loop is
modelled as ascending order (CPython iterates small nonnegative int sets
in ascending order), and the properties proved below hold for any
iteration order. -/

/-- Half-track conversion `int(2 * v + 1)` of a requested track index. -/
def to_htr (v : Int) : Int := 2 * v + 1

/-- One step of the two greedy loops: add half-track `d` to the port set
unless a track adjacent to it (at half-track distance 2) is already
chosen.  Python `set.add` never duplicates an element. -/
def add_port_track (p : List Int) (d : Int) : List Int :=
  if d + 2 ∈ p ∨ d - 2 ∈ p then p
  else if d ∈ p then p else p ++ [d]

/-- The final port half-track set of `draw_substrate_connection` (for
`dummy_only = False`): requested port tracks, plus non-adjacent dummy
tracks, plus non-adjacent unused even half-tracks `0, 2, ..., 2*fg`. -/
def tap_port_htr (port_tracks dum_tracks : List Int) (fg : Int) : List Int :=
  let phtr0 := (port_tracks.map to_htr).dedup
  let dhtr := (dum_tracks.map to_htr).dedup
  let phtr1 := (dhtr.insertionSort (· ≤ ·)).foldl add_port_track phtr0
  let evens := (List.range (fg + 1).toNat).map fun (i : Nat) => 2 * (i : Int)
  evens.foldl add_port_track phtr1

/-- The final dummy (M2) half-track set: the requested dummy tracks
updated with all chosen port tracks (`dhtr_set.update(phtr_set)`). -/
def tap_dum_htr (port_tracks dum_tracks : List Int) (fg : Int) : List Int :=
  ((dum_tracks.map to_htr).dedup).union (tap_port_htr port_tracks dum_tracks fg)

/-- No two chosen tracks at half-track distance 2 of each other. -/
def NoPortAdjacent (p : List Int) : Prop := ∀ a ∈ p, a + 2 ∉ p

instance (p : List Int) : Decidable (NoPortAdjacent p) :=
  List.decidableBAll _ p

/-! ## Helper lemmas -/

theorem except_bind_ok {α β : Type} (x : α) (f : α → Except Err β) :
    (Except.ok x >>= f) = f x := rfl

theorem cdiv48_nonneg {v : Int} (hv : 0 ≤ v) : 0 ≤ cdiv v 48 := by
  unfold cdiv
  rw [Int.fdiv_eq_ediv _ (by norm_num : (0 : Int) ≤ 48)]
  omega

theorem mem_rangeAsc {x lo hi : Int} : x ∈ rangeAsc lo hi ↔ lo ≤ x ∧ x ≤ hi := by
  unfold rangeAsc
  simp only [List.mem_map, List.mem_range]
  constructor
  · rintro ⟨i, hi', rfl⟩
    omega
  · rintro ⟨h1, h2⟩
    exact ⟨(x - lo).toNat, by omega, by omega⟩

theorem pairwise_rangeAsc (lo hi : Int) : (rangeAsc lo hi).Pairwise (· < ·) := by
  unfold rangeAsc
  exact (List.pairwise_lt_range _).map _ (fun a b hab => by omega)

theorem ext_min_w_nonneg (top bot : ExtInfo) : 0 ≤ ext_min_w top bot := by
  simp only [ext_min_w]
  exact le_max_of_le_left (le_max_of_le_left (le_max_left 0 _))

theorem min_ext_w_od_nonneg (top bot : ExtInfo) : 0 ≤ min_ext_w_od top bot := by
  simp only [min_ext_w_od, fin_pitch]
  apply cdiv48_nonneg
  refine le_max_of_le_left (le_max_of_le_right ?_)
  simp only [cpo_spy, cpo_h]
  norm_num

/-! ## Claim theorems -/

/-- C1: the spec claims the via-stack sizing functions return without
raising for the supported channel length 18 and fail with
`UnsupportedProcessPoint` for every other channel length.  In the code,
`get_ds_via_info` raises `KeyError('fin_p')` on every call, the supported
channel length included (the constant table's key is `fin_pitch`), and
`get_gate_via_info` never consults the channel length at all, so it
returns the same result without raising for every channel length,
unsupported ones included. -/
theorem ds_via_stack_key_error :
    get_ds_via_info 18 4 = .error (.keyError "fin_p")
    ∧ (∀ lch w : Int, get_ds_via_info lch w = .error (.keyError "fin_p"))
    ∧ (∀ lch : Int, isOkB (get_gate_via_info lch) = true)
    ∧ (∀ lch : Int, get_gate_via_info lch = get_gate_via_info 18) :=
  ⟨rfl, fun _ _ => rfl, fun _ => rfl, fun _ => rfl⟩

/-- C3: the fin-grid rounding step of `get_mos_info` (source lines
465-474) leaves the active-region center congruent to 0 modulo the fin
pitch when the fin count is even, and congruent to half a fin pitch
(24) when the fin count is odd, for every unrounded input center. -/
theorem mos_od_center_fin_grid_parity (w od_yc : Int) :
    mos_od_yc_round w od_yc % fin_pitch
      = if w % 2 = 0 then 0 else fin_pitch.fdiv 2 := by
  have h2 : fin_pitch.fdiv 2 = 24 := by decide
  unfold mos_od_yc_round
  by_cases hw : w % 2 = 0
  · simp only [hw, if_true, if_pos]
    generalize cdiv od_yc fin_pitch = k
    simp only [fin_pitch]
    omega
  · simp only [hw, if_neg, if_false, h2]
    generalize cdiv (od_yc - 24) fin_pitch = k
    simp only [fin_pitch]
    omega

/-- C6: the spec claims a height-zero `get_ext_info` call returns a
layout holding exactly one boundary-cut layer and nothing else.  In the
code, line 784 reads `mos_constants['md_w']`, a key
`get_mos_tech_constants` never stores, so every call (the height-zero
one included, for every finger count, every flanking `ExtInfo` pair and
every fill helper) raises `KeyError('md_w')` before the height test. -/
theorem ext_zero_height_key_error
    (fillSym : Int → Int → Int → Int → Int → List (Int × Int))
    (fg : Int) (top bot : ExtInfo) :
    get_ext_info fillSym 18 0 fg top bot = .error (.keyError "md_w") := rfl

/-- C7: the spec claims `get_substrate_info` returns a block height
rounded to the least common multiple of the fin pitch and the block
pitch, re-centering the active region.  In the code, the first statement
(source line 1060) reads `cls.tech_constants['md_od_ext']`, but the
table's key is `md_od_exty`, so every call raises
`KeyError('md_od_ext')` and no substrate-row request ever returns. -/
theorem substrate_info_key_error (lch_unit w : Int) (sub_type threshold : String)
    (fg blk_pitch : Int) :
    get_substrate_info lch_unit w sub_type threshold fg blk_pitch
      = .error (.keyError "md_od_ext") := rfl

/-- C10: in `draw_mos`, when the block is one finger wide and only one
side's edge information is supplied, the missing side inherits the
supplied side's `EdgeInfo`, and the single boundary poly finger's
purpose (when the finger is not on an OD) is decided by that neighbor's
`od_type` rather than by the no-neighbor default. -/
theorem draw_mos_single_finger_edge_inherit (e : EdgeInfo) (odt : Option String) :
    resolve_blk_info 1 none (some e) = (e, e)
    ∧ resolve_blk_info 1 (some e) none = (e, e)
    ∧ po_cur_od_type 1 0 false odt e e = e.od_type
    ∧ po_layer (po_cur_od_type 1 0 false odt e e) = po_layer e.od_type :=
  ⟨rfl, rfl, rfl, rfl⟩

/-- C2: whenever `get_valid_extension_widths` returns more than one
value, the returned list is exactly the contiguous range from the
computed minimum width up to the maximum no-dummy width followed by the
single minimum with-dummy width, and the maximum no-dummy width is
strictly below the minimum with-dummy width minus one (a forbidden gap
exists). -/
theorem ext_width_forbidden_gap (lch_unit : Int) (top bot : ExtInfo)
    (h : 1 < (get_valid_extension_widths lch_unit top bot).length) :
    get_valid_extension_widths lch_unit top bot
        = rangeAsc (ext_min_w top bot) (max_ext_w_no_od top bot)
          ++ [min_ext_w_od top bot]
      ∧ max_ext_w_no_od top bot < min_ext_w_od top bot - 1 := by
  by_cases hc : min_ext_w_od top bot ≤ max_ext_w_no_od top bot + 1
  · simp [get_valid_extension_widths, hc] at h
  · exact ⟨by simp [get_valid_extension_widths, hc], by omega⟩

/-- A concrete `ExtInfo` pair on which `get_valid_extension_widths`
returns the two-element list `[0, 4]`. -/
def extWitnessInfo : ExtInfo :=
  { mx_margin := 100, od_margin := 400, md_margin := 50, m1_margin := 100,
    imp_min_w := 0, mtype := ("ptap", "ptap"), thres := "svt",
    po_types := [1, 1], edgel_info := ⟨some "sub"⟩, edger_info := ⟨some "sub"⟩ }

/-- Witness for C2 at a concrete input with a forbidden gap. -/
theorem ext_width_forbidden_gap_witness :
    1 < (get_valid_extension_widths 18 extWitnessInfo extWitnessInfo).length
    ∧ (get_valid_extension_widths 18 extWitnessInfo extWitnessInfo
          = rangeAsc (ext_min_w extWitnessInfo extWitnessInfo)
              (max_ext_w_no_od extWitnessInfo extWitnessInfo)
            ++ [min_ext_w_od extWitnessInfo extWitnessInfo]
        ∧ max_ext_w_no_od extWitnessInfo extWitnessInfo
            < min_ext_w_od extWitnessInfo extWitnessInfo - 1) :=
  ⟨by decide, ext_width_forbidden_gap 18 extWitnessInfo extWitnessInfo (by decide)⟩

/-- C9: for every pair of `ExtInfo` records, `get_valid_extension_widths`
returns a non-empty, strictly increasing list of non-negative widths. -/
theorem ext_width_list_sorted_nonneg (lch_unit : Int) (top bot : ExtInfo) :
    get_valid_extension_widths lch_unit top bot ≠ []
    ∧ (get_valid_extension_widths lch_unit top bot).Pairwise (· < ·)
    ∧ ∀ x ∈ get_valid_extension_widths lch_unit top bot, 0 ≤ x := by
  unfold get_valid_extension_widths
  by_cases hc : min_ext_w_od top bot ≤ max_ext_w_no_od top bot + 1
  · simp only [hc, if_true, if_pos]
    refine ⟨by simp, List.pairwise_singleton _ _, ?_⟩
    intro x hx
    rw [List.mem_singleton] at hx
    exact hx ▸ ext_min_w_nonneg top bot
  · simp only [hc, if_false, if_neg, not_false_iff]
    refine ⟨by simp, ?_, ?_⟩
    · rw [List.pairwise_append]
      refine ⟨pairwise_rangeAsc _ _, List.pairwise_singleton _ _, ?_⟩
      intro x hx y hy
      rw [mem_rangeAsc] at hx
      rw [List.mem_singleton] at hy
      subst hy
      omega
    · intro x hx
      rw [List.mem_append] at hx
      rcases hx with hx | hx
      · rw [mem_rangeAsc] at hx
        have := ext_min_w_nonneg top bot
        omega
      · rw [List.mem_singleton] at hx
        exact hx ▸ min_ext_w_od_nonneg top bot

/-- C5: in `get_ext_info`, when the two flanking contexts are substrate
taps of the same implant flavor (both `ptap` or both `ntap`, case 2 of
the implant strategy), the split coordinate is chosen by ascending
alphabetical comparison of the threshold strings: `bot_thres <=
top_thres` selects the bottom candidate of `imp_split_y`, otherwise the
top candidate; and when a dummy active region is present with an even
dummy count, both candidates are exactly the vertical center of the
block. -/
theorem ext_same_flavor_sub_split_choice
    (bot_mtype top_mtype bot_thres top_thres rt : String) (has_od : Bool)
    (w : Int) (one_cpo : Bool) (od_y_list : List (Int × Int))
    (hrt : rt = "ptap" ∨ rt = "ntap") (hnil : od_y_list ≠ []) :
    ext_imp_ysep (ext_imp_split_y w one_cpo true od_y_list)
        (ext_imp_choice bot_mtype rt bot_thres top_mtype rt top_thres has_od).2.2.2.2
      = (if bot_thres ≤ top_thres
          then (ext_imp_split_y w one_cpo true od_y_list).1
          else (ext_imp_split_y w one_cpo true od_y_list).2)
    ∧ (od_y_list.length % 2 = 0 →
        ext_imp_split_y w one_cpo true od_y_list
          = ((w * fin_pitch).fdiv 2, (w * fin_pitch).fdiv 2)) := by
  constructor
  · have hsel : (ext_imp_choice bot_mtype rt bot_thres top_mtype rt top_thres
        has_od).2.2.2.2 = (if bot_thres ≤ top_thres then (0 : Nat) else 1) := by
      rcases hrt with h | h <;> subst h <;> rfl
    rw [hsel]
    by_cases hth : bot_thres ≤ top_thres
    · simp [hth, ext_imp_ysep]
    · simp [hth, ext_imp_ysep]
  · intro hev
    cases od_y_list with
    | nil => exact absurd rfl hnil
    | cons a l =>
      simp only [ext_imp_split_y, if_pos, if_true]
      rw [if_pos hev]

/-- Witness for C5: both contexts `ptap`, thresholds `lvt` vs `svt`, two
dummy rows. -/
theorem ext_same_flavor_sub_split_choice_witness :
    (("ptap" : String) = "ptap" ∨ ("ptap" : String) = "ntap")
    ∧ ([((100 : Int), (200 : Int)), (300, 400)] ≠ ([] : List (Int × Int)))
    ∧ (ext_imp_ysep (ext_imp_split_y 4 false true [(100, 200), (300, 400)])
          (ext_imp_choice "ptap" "ptap" "lvt" "ptap" "ptap" "svt" true).2.2.2.2
        = (if ("lvt" : String) ≤ "svt"
            then (ext_imp_split_y 4 false true [(100, 200), (300, 400)]).1
            else (ext_imp_split_y 4 false true [(100, 200), (300, 400)]).2)
      ∧ (([((100 : Int), (200 : Int)), (300, 400)]).length % 2 = 0 →
          ext_imp_split_y 4 false true [(100, 200), (300, 400)]
            = (((4 : Int) * fin_pitch).fdiv 2, ((4 : Int) * fin_pitch).fdiv 2))) :=
  ⟨Or.inl rfl, by decide,
    ext_same_flavor_sub_split_choice "ptap" "ptap" "lvt" "svt" "ptap" true 4 false
      [(100, 200), (300, 400)] (Or.inl rfl) (by decide)⟩

/-! ## Track-selection lemmas for C4 -/

theorem add_port_track_sub (p : List Int) (d : Int) : p ⊆ add_port_track p d := by
  unfold add_port_track
  split_ifs
  · exact fun _ hx => hx
  · exact fun _ hx => hx
  · exact List.subset_append_left p [d]

theorem foldl_add_port_track_sub (l p : List Int) :
    p ⊆ l.foldl add_port_track p := by
  induction l generalizing p with
  | nil => exact fun _ hx => hx
  | cons a l ih =>
    exact List.Subset.trans (add_port_track_sub p a) (ih (add_port_track p a))

theorem add_port_track_noadj (p : List Int) (d : Int) (h : NoPortAdjacent p) :
    NoPortAdjacent (add_port_track p d) := by
  unfold add_port_track
  split_ifs with h1 h2
  · exact h
  · exact h
  · push_neg at h1
    intro a ha hcon
    rw [List.mem_append, List.mem_singleton] at ha hcon
    rcases ha with ha | ha
    · rcases hcon with hc | hc
      · exact h a ha hc
      · refine h1.2 ?_
        have hda : d - 2 = a := by omega
        rwa [hda]
    · rcases hcon with hc | hc
      · refine h1.1 ?_
        rwa [ha] at hc
      · omega

theorem foldl_add_port_track_noadj (l p : List Int) (h : NoPortAdjacent p) :
    NoPortAdjacent (l.foldl add_port_track p) := by
  induction l generalizing p with
  | nil => exact h
  | cons a l ih => exact ih (add_port_track p a) (add_port_track_noadj p a h)

/-- C4 counterexample: the claim says the final port-track set never
contains two tracks at half-track distance 2.  Requesting the two
adjacent port tracks 0 and 1 (half-tracks 1 and 3) with no dummy tracks
and `fg = 0` keeps both in the final set, at half-track distance 2. -/
theorem tap_port_adjacent_counterexample :
    (1 : Int) ∈ tap_port_htr [0, 1] [] 0
    ∧ (1 : Int) + 2 ∈ tap_port_htr [0, 1] [] 0
    ∧ ¬ NoPortAdjacent (tap_port_htr [0, 1] [] 0) := by decide

/-- C4 amended: provided the requested port tracks themselves contain no
two tracks at half-track distance 2, the final port-track set of
`draw_substrate_connection` (with `dummy_only` false) contains no two
tracks at half-track distance 2, contains every requested port track,
and the final dummy/M2 track set contains every chosen port track and
every requested dummy track. -/
theorem tap_port_track_selection_sound (port_tracks dum_tracks : List Int)
    (fg : Int) (hadj : NoPortAdjacent ((port_tracks.map to_htr).dedup)) :
    NoPortAdjacent (tap_port_htr port_tracks dum_tracks fg)
    ∧ (∀ v ∈ port_tracks, to_htr v ∈ tap_port_htr port_tracks dum_tracks fg)
    ∧ (∀ x ∈ tap_port_htr port_tracks dum_tracks fg,
        x ∈ tap_dum_htr port_tracks dum_tracks fg)
    ∧ (∀ v ∈ dum_tracks, to_htr v ∈ tap_dum_htr port_tracks dum_tracks fg) := by
  refine ⟨?_, ?_, ?_, ?_⟩
  · exact foldl_add_port_track_noadj _ _ (foldl_add_port_track_noadj _ _ hadj)
  · intro v hv
    apply foldl_add_port_track_sub
    apply foldl_add_port_track_sub
    rw [List.mem_dedup, List.mem_map]
    exact ⟨v, hv, rfl⟩
  · intro x hx
    unfold tap_dum_htr
    exact List.mem_union_iff.mpr (Or.inr hx)
  · intro v hv
    unfold tap_dum_htr
    refine List.mem_union_iff.mpr (Or.inl ?_)
    rw [List.mem_dedup, List.mem_map]
    exact ⟨v, hv, rfl⟩

/-- Witness for C4 at a concrete request: ports 0 and 2 (half-tracks 1
and 5, non-adjacent), dummy track 1 (half-track 3), two fingers. -/
theorem tap_port_track_selection_sound_witness :
    NoPortAdjacent ((([0, 2] : List Int).map to_htr).dedup)
    ∧ (NoPortAdjacent (tap_port_htr [0, 2] [1] 2)
      ∧ (∀ v ∈ ([0, 2] : List Int), to_htr v ∈ tap_port_htr [0, 2] [1] 2)
      ∧ (∀ x ∈ tap_port_htr [0, 2] [1] 2, x ∈ tap_dum_htr [0, 2] [1] 2)
      ∧ (∀ v ∈ ([1] : List Int), to_htr v ∈ tap_dum_htr [0, 2] [1] 2)) :=
  ⟨by decide, tap_port_track_selection_sound [0, 2] [1] 2 (by decide)⟩

theorem except_pure_bind {α β : Type} (x : α) (f : α → Except Err β) :
    ((pure x : Except Err α) >>= f) = f x := rfl

theorem isOkB_pure {α : Type} (x : α) : isOkB (pure x : Except Err α) = true := rfl

theorem isOkB_error {α : Type} (e : Err) : isOkB (.error e : Except Err α) = false := rfl

/-- C8 counterexample: the claim says every guard-ring finger count below
the minimum (2) makes `get_edge_info` raise, but `guard_ring_nf = 0` is
below the minimum and `get_edge_info` returns normally (the guard is
`0 < guard_ring_nf < gr_nf_min`). -/
theorem edge_info_zero_gr_ok :
    isOkB (get_edge_info 90 18 0 false) = true ∧ (0 : Int) < 2 := by decide

/-- C8 amended: at the supported channel length, `get_edge_info` raises
`InvalidGuardRingWidth` exactly when `0 < guard_ring_nf < 2`
(`guard_ring_nf = 0` means "no guard ring" and is accepted), and
`get_gr_sub_info` raises exactly when `guard_ring_nf < 2`; at or above
the minimum neither raises on account of the guard-ring width. -/
theorem guard_ring_min_checks (vm nf : Int) (ie : Bool) (li : LayoutInfo)
    (h18 : li.lch_unit = 18) (hip : li.imp_params = none) :
    (isOkB (get_edge_info vm 18 nf ie) = false ↔ (0 < nf ∧ nf < 2))
    ∧ ((0 < nf ∧ nf < 2) →
        get_edge_info vm 18 nf ie = .error (.invalidGuardRing nf 2))
    ∧ (isOkB (get_gr_sub_info nf li) = false ↔ nf < 2)
    ∧ (nf < 2 → get_gr_sub_info nf li = .error (.invalidGuardRing nf 2)) := by
  have hetc : get_edge_tech_constants 18 = .ok ⟨2, 3, 0, 1, 2, 34⟩ := rfl
  have hmos : get_mos_tech_constants 18
      = .ok [("sd_pitch", 90), ("laygo_num_sd_per_track", 1), ("num_sd_per_track", 1),
             ("laygo_conn_w", md_w), ("mos_conn_w", md_w), ("dum_conn_w", md_w),
             ("m1_w", md_w)] := rfl
  have hsd : dict_lookup [("sd_pitch", 90), ("laygo_num_sd_per_track", 1),
      ("num_sd_per_track", 1), ("laygo_conn_w", md_w), ("mos_conn_w", md_w),
      ("dum_conn_w", md_w), ("m1_w", md_w)] "sd_pitch" = .ok 90 := rfl
  refine ⟨?_, ?_, ?_, ?_⟩
  · simp only [get_edge_info, hetc, hmos, hsd, except_bind_ok]
    by_cases hnf : 0 < nf ∧ nf < 2
    · rw [if_pos hnf]
      simp [isOkB_error, hnf]
    · rw [if_neg hnf]
      simp [isOkB_pure, hnf]
  · intro hnf
    simp only [get_edge_info, hetc, hmos, hsd, except_bind_ok]
    rw [if_pos hnf]
  · simp only [get_gr_sub_info, h18, hetc, hip, except_bind_ok]
    by_cases hnf : nf < 2
    · rw [if_pos hnf]
      simp [isOkB_error, hnf]
    · rw [if_neg hnf]
      simp only [except_pure_bind, isOkB_pure]
      simp [hnf]
  · intro hnf
    simp only [get_gr_sub_info, h18, hetc, hip, except_bind_ok]
    rw [if_pos hnf]

/-- A concrete `LayoutInfo` at the supported channel length with no
implant parameters. -/
def layoutWitnessInfo : LayoutInfo :=
  { lch_unit := 18, md_w := 40, fg := 2, sd_pitch := 90, array_box_xl := 0,
    array_box_y := (0, 0), draw_od := true, row_info_list := [],
    lay_info_list := [], adj_info_list := [], left_blk_info := none,
    right_blk_info := none, fill_info_list := [], blk_type := "sub",
    imp_params := none }

/-- Witness for C8 at `guard_ring_nf = 1` (the one value `get_edge_info`
rejects). -/
theorem guard_ring_min_checks_witness :
    layoutWitnessInfo.lch_unit = 18
    ∧ layoutWitnessInfo.imp_params = none
    ∧ ((isOkB (get_edge_info 90 18 1 false) = false ↔ ((0 : Int) < 1 ∧ (1 : Int) < 2))
      ∧ (((0 : Int) < 1 ∧ (1 : Int) < 2) →
          get_edge_info 90 18 1 false = .error (.invalidGuardRing 1 2))
      ∧ (isOkB (get_gr_sub_info 1 layoutWitnessInfo) = false ↔ (1 : Int) < 2)
      ∧ ((1 : Int) < 2 →
          get_gr_sub_info 1 layoutWitnessInfo = .error (.invalidGuardRing 1 2))) :=
  ⟨rfl, rfl, guard_ring_min_checks 90 1 false layoutWitnessInfo rfl rfl⟩
